import Mathlib

/-
Verification of the runc-shim container supervisor.

The development shallowly embeds the shim source:
  - container.rs   : the Container entity (status, pid, exit code, wait channels)
  - service.rs     : the Task RPC service (create/start/delete/wait/kill/shutdown)
  - signal.rs      : the signal dispatcher loop and forward_signal
  - utils.rs       : the ExitSignal one-shot latch
  - main.rs        : socket-path derivation and the phase-A launcher

External effects (spawning the OCI runtime, waitpid, kill(2), file writes)
are modelled by explicit outcome parameters so every definition is a pure,
executable function translated from the source control flow.
-/

namespace RuncShim

/-- Container status, from container.rs enum Status. -/
inductive Status where
  | UNKNOWN
  | CREATED
  | RUNNING
  | STOPPED
deriving DecidableEq, Repr

/-- Position of a status in the order UNKNOWN, CREATED, RUNNING, STOPPED. -/
def statusIdx : Status → Nat
  | .UNKNOWN => 0
  | .CREATED => 1
  | .RUNNING => 2
  | .STOPPED => 3

/-- Outcome of spawning the OCI runtime binary and waiting for it:
spawn failure, wait failure, normal exit with a code, or death by signal.
Models the spawn and wait calls in container.rs. -/
inductive RunResult where
  | spawnErr
  | waitErr
  | exited (code : Int)
  | signaled (sig : Nat)
deriving DecidableEq, Repr

/-- ExitStatus.success in the source: true exactly for a zero exit code. -/
def runOk : RunResult → Bool
  | .exited code => decide (code = 0)
  | _ => false

/-- Result of a container operation, modelling Result of unit with the
error message produced by the source bail sites. -/
inductive CRes where
  | ok
  | err (msg : String)
deriving DecidableEq, Repr

/-- The Container entity, from container.rs struct Container.  The
wait_channels field counts the enqueued unbounded senders; exited_at is a
timestamp in abstract units (None before exit, as in the source). -/
structure Container where
  id : String
  bundle : String
  stdout : String
  stderr : String
  status : Status
  pid : Int
  exit_code : Int
  exited_at : Option Int
  wait_channels : Nat
deriving DecidableEq, Repr

/-- Container::new from container.rs: status UNKNOWN, pid 0, exit code 0,
no exit timestamp, empty wait-channel vector. -/
def Container.new (id bundle stdout stderr : String) : Container :=
  ⟨id, bundle, stdout, stderr, .UNKNOWN, 0, 0, none, 0⟩

/-- Container::create from container.rs: spawn the runtime with the create
arguments; on spawn or wait failure, or a non-success exit status, bail with
the source error message and touch nothing; on success read the pid file
(pf is None when reading or parsing it fails), and only then write pid and
status CREATED. -/
def Container.create (rt : RunResult) (pf : Option Int) (c : Container) :
    CRes × Container :=
  match rt with
  | .spawnErr => (.err "Failed to spawn OCI runtime", c)
  | .waitErr => (.err "Failed to wait for OCI runtime", c)
  | .exited code =>
      if code = 0 then
        match pf with
        | some p => (.ok, { c with pid := p, status := .CREATED })
        | none => (.err "Failed to read pid file", c)
      else (.err "OCI runtime exited with status", c)
  | .signaled _ => (.err "OCI runtime exited with status", c)

/-- Container::start from container.rs: spawn the runtime with the start
arguments; on failure bail with the source message and touch nothing; on
success set status RUNNING.  The source checks no precondition on the
current status. -/
def Container.start (rt : RunResult) (c : Container) : CRes × Container :=
  match rt with
  | .spawnErr => (.err "Failed to spawn OCI runtime", c)
  | .waitErr => (.err "Failed to wait for OCI runtime", c)
  | .exited code =>
      if code = 0 then (.ok, { c with status := .RUNNING })
      else (.err "OCI runtime exited with status", c)
  | .signaled _ => (.err "OCI runtime exited with status", c)

/-- Container::delete from container.rs: spawn the runtime with the delete
arguments; no container field is written in either branch. -/
def Container.delete (rt : RunResult) (c : Container) : CRes × Container :=
  match rt with
  | .spawnErr => (.err "Failed to spawn OCI runtime", c)
  | .waitErr => (.err "Failed to wait for OCI runtime", c)
  | .exited code =>
      if code = 0 then (.ok, c)
      else (.err "OCI runtime exited with status", c)
  | .signaled _ => (.err "OCI runtime exited with status", c)

/-- Container::wait_channel from container.rs: under the status read lock,
push a fresh sender only when the status is not STOPPED; the returned Bool
records whether the sender was enqueued (when it is false the sender is
dropped on return, leaving the receiver closed). -/
def wait_channel (c : Container) : Bool × Container :=
  if c.status = Status.STOPPED then (false, c)
  else (true, { c with wait_channels := c.wait_channels + 1 })

/-- Container::set_exited from container.rs: set status STOPPED, record the
exit code and timestamp, then drain the wait channels sending to each; the
returned Nat is the number of senders notified. -/
def Container.set_exited (exit_code : Int) (t : Int) (c : Container) :
    Nat × Container :=
  (c.wait_channels,
   { c with
       status := .STOPPED
       exit_code := exit_code
       exited_at := some t
       wait_channels := 0 })

/-- RPC status codes used by the service, from tonic Code in service.rs. -/
inductive Code where
  | AlreadyExists
  | NotFound
  | InvalidArgument
  | Internal
  | Aborted
deriving DecidableEq, Repr

/-- Result of an RPC verb: the response payload or a status code. -/
inductive RpcRes (α : Type) where
  | ok (val : α)
  | err (code : Code)
deriving DecidableEq, Repr

/-- ExitSignal::signal from utils.rs: store true into the flag and wake the
waiters; the latch state is the Bool. -/
def ExitSignal.signal (_latch : Bool) : Bool := true

/-- Outcome of the kill(2) syscall made by forward_signal in signal.rs. -/
inductive KillOutcome where
  | delivered
  | esrch
  | eperm
  | otherErr
deriving DecidableEq, Repr

/-- What forward_signal logs for a given kill(2) outcome. -/
inductive LogAction where
  | silent
  | warned
  | errored
deriving DecidableEq, Repr

/-- forward_signal from signal.rs: success is silent, ESRCH logs a warning,
any other error logs at error level; in every case the function returns
unit, so no error ever propagates to the caller. -/
def forward_signal : KillOutcome → LogAction
  | .delivered => .silent
  | .esrch => .warned
  | .eperm => .errored
  | .otherErr => .errored

/-- Container::kill from container.rs: read the pid and call the
dispatcher's forwarder; forward_signal cannot fail, so the operation always
returns Ok and leaves the container unchanged. -/
def Container.kill (o : KillOutcome) (c : Container) : CRes × Container :=
  match forward_signal o with
  | _ => (.ok, c)

/-- nix Signal::try_from on an i32, as used by TaskService::kill: the Linux
signal numbers 1 through 31 convert, every other value is rejected. -/
def signalOfNum (n : Int) : Option Nat :=
  if 1 ≤ n ∧ n ≤ 31 then some n.toNat else none

/-- TaskService::start from service.rs: look the container up by id (the
registry is a single Option slot); a missing or mismatched id is NotFound;
otherwise invoke Container::start, mapping its error to Internal and its
success to the pid.  The third component records whether the runtime was
invoked.  The source checks no status precondition. -/
def TaskService.start (reg : Option Container) (reqId : String)
    (rt : RunResult) : RpcRes Int × Option Container × Bool :=
  match reg with
  | some c =>
      if c.id = reqId then
        match Container.start rt c with
        | (.ok, c1) => (.ok c1.pid, some c1, true)
        | (.err _, c1) => (.err .Internal, some c1, true)
      else (.err .NotFound, some c, false)
  | none => (.err .NotFound, none, false)

/-- Possible results of the Wait RPC body in service.rs. -/
inductive WaitOutcome where
  | response (exit_status : Int) (exited_at : Option Int)
  | aborted
  | notFound
deriving DecidableEq, Repr

/-- TaskService::wait from service.rs, run against an explicit interleaving
with Container::set_exited.  The Wait body snapshots the status; when the
snapshot is neither RUNNING nor CREATED it replies immediately with the
recorded exit code and timestamp.  Otherwise it calls wait_channel and then
awaits the receiver: a receiver whose sender was enqueued is satisfied by
the set_exited drain and Wait replies with the exit data; a receiver whose
sender was dropped yields None and Wait replies Aborted.  The Bool chooses
whether set_exited runs between the snapshot and the wait_channel call
(the race the specification discusses) or after the subscription; the
container stays registered throughout. -/
def TaskService.waitRace (c0 : Container) (ec : Int) (t : Int)
    (exitBeforeSubscribe : Bool) : WaitOutcome :=
  if c0.status ≠ Status.RUNNING ∧ c0.status ≠ Status.CREATED then
    .response c0.exit_code c0.exited_at
  else
    let c1 := if exitBeforeSubscribe then (Container.set_exited ec t c0).2 else c0
    let sub := wait_channel c1
    let c3 := if exitBeforeSubscribe then sub.2 else (Container.set_exited ec t sub.2).2
    if sub.1 then .response c3.exit_code c3.exited_at else .aborted

/-- TaskService::kill from service.rs: NotFound for a missing or mismatched
id, InvalidArgument when the signal number does not convert, otherwise call
Container::kill mapping its (impossible) error to Internal and its success
to the empty response. -/
def TaskService.kill (reg : Option Container) (reqId : String) (sigNum : Int)
    (o : KillOutcome) : RpcRes Unit :=
  match reg with
  | some c =>
      if c.id = reqId then
        match signalOfNum sigNum with
        | some _ =>
            match Container.kill o c with
            | (.ok, _) => .ok ()
            | (.err _, _) => .err .Internal
        | none => .err .InvalidArgument
      else .err .NotFound
  | none => .err .NotFound

/-- TaskService::shutdown from service.rs: when a container is registered,
kill it with SIGTERM (Container::kill cannot fail) and then delete it via
the runtime; an error in either step returns Internal at once, leaving the
registry and the exit latch untouched.  Only after both steps succeed, or
when no container is registered, is the slot taken and the exit latch
fired.  Returns (rpc result, registry after, latch after). -/
def TaskService.shutdown (reg : Option Container) (o : KillOutcome)
    (rt : RunResult) (latch : Bool) : RpcRes Unit × Option Container × Bool :=
  match reg with
  | some c =>
      match Container.kill o c with
      | (.err _, c1) => (.err .Internal, some c1, latch)
      | (.ok, c1) =>
          match Container.delete rt c1 with
          | (.err _, c2) => (.err .Internal, some c2, latch)
          | (.ok, _) => (.ok (), none, ExitSignal.signal latch)
  | none => (.ok (), none, ExitSignal.signal latch)

/-- The four signals the dispatcher in signal.rs subscribes to. -/
inductive Sig where
  | sigchld
  | sigint
  | sigterm
  | sigquit
deriving DecidableEq, Repr

/-- State of one child process of the shim as seen by waitpid. -/
inductive ChildState where
  | alive
  | zombieExited (code : Int)
  | zombieSignaled (sig : Nat)
deriving DecidableEq, Repr

/-- The WaitStatus values the dispatcher distinguishes. -/
inductive WaitRes where
  | exitedRes (pid : Int) (code : Int)
  | signaledRes (pid : Int) (sig : Nat)
  | stillAlive
deriving DecidableEq, Repr

/-- Look a pid up in the child table. -/
def findChild : List (Int × ChildState) → Int → Option ChildState
  | [], _ => none
  | (p, st) :: rest, pid => if p = pid then some st else findChild rest pid

/-- Remove the first entry for a pid from the child table (the reap). -/
def removeChild : List (Int × ChildState) → Int → List (Int × ChildState)
  | [], _ => []
  | (p, st) :: rest, pid =>
      if p = pid then rest else (p, st) :: removeChild rest pid

/-- waitpid with WNOHANG on a specific pid: error (ECHILD) when the pid is
not a child, StillAlive when the child has not terminated, otherwise reap
the zombie, removing it from the table and reporting its status. -/
def waitpidNohang (children : List (Int × ChildState)) (pid : Int) :
    Except Unit (WaitRes × List (Int × ChildState)) :=
  match findChild children pid with
  | none => .error ()
  | some .alive => .ok (.stillAlive, children)
  | some (.zombieExited code) => .ok (.exitedRes pid code, removeChild children pid)
  | some (.zombieSignaled sig) => .ok (.signaledRes pid sig, removeChild children pid)

/-- How a run of the dispatcher function ends: ranOut means every supplied
event was handled and the loop is still iterating (the function has not
returned); returnedOk and returnedErr mean the function returned. -/
inductive DispatchOutcome where
  | ranOut
  | returnedOk
  | returnedErr
deriving DecidableEq, Repr

/-- Trace of one dispatcher run: every pid passed to waitpid, every exit
code sent on the wait channels, every signal number forwarded to the
container, the final child table, and how the run ended. -/
structure DispatchTrace where
  reapCalls : List Int
  emitted : List Int
  forwarded : List Nat
  finalChildren : List (Int × ChildState)
  outcome : DispatchOutcome
deriving DecidableEq, Repr

/-- handle_signals from signal.rs, driven by a list of delivered signal
events.  SIGINT, SIGTERM and SIGQUIT forward the same signal to the
container pid and continue the loop.  SIGCHLD performs a single waitpid
with WNOHANG on the container pid (an error return propagates out of the
function), sends 128 plus the signal number, or the exit code, on the wait
channels when the child terminated, and then breaks out of the loop, after
which the function returns Ok. -/
def handle_signals (containerPid : Int) (children : List (Int × ChildState)) :
    List Sig → DispatchTrace
  | [] => ⟨[], [], [], children, .ranOut⟩
  | .sigchld :: _ =>
      match waitpidNohang children containerPid with
      | .error _ => ⟨[containerPid], [], [], children, .returnedErr⟩
      | .ok (res, children1) =>
          let ec : Option Int :=
            match res with
            | .exitedRes _ code => some code
            | .signaledRes _ sig => some (128 + (sig : Int))
            | .stillAlive => none
          ⟨[containerPid], ec.toList, [], children1, .returnedOk⟩
  | .sigint :: rest =>
      let t := handle_signals containerPid children rest
      { t with forwarded := 2 :: t.forwarded }
  | .sigterm :: rest =>
      let t := handle_signals containerPid children rest
      { t with forwarded := 15 :: t.forwarded }
  | .sigquit :: rest =>
      let t := handle_signals containerPid children rest
      { t with forwarded := 3 :: t.forwarded }

/-- Truncation to 64 bits. -/
def w64 (n : Nat) : Nat := n % 18446744073709551616

/-- Left rotation of a 64-bit word. -/
def rotl64 (x r : Nat) : Nat := w64 (x <<< r ||| x >>> (64 - r))

/-- 64-bit wrapping addition. -/
def add64 (x y : Nat) : Nat := w64 (x + y)

/-- The four SipHash state words. -/
structure SipState where
  v0 : Nat
  v1 : Nat
  v2 : Nat
  v3 : Nat
deriving DecidableEq, Repr

/-- One SipHash round. -/
def sipRound (s : SipState) : SipState :=
  let v0 := add64 s.v0 s.v1
  let v1 := rotl64 s.v1 13
  let v1 := Nat.xor v1 v0
  let v0 := rotl64 v0 32
  let v2 := add64 s.v2 s.v3
  let v3 := rotl64 s.v3 16
  let v3 := Nat.xor v3 v2
  let v0 := add64 v0 v3
  let v3 := rotl64 v3 21
  let v3 := Nat.xor v3 v0
  let v2 := add64 v2 v1
  let v1 := rotl64 v1 17
  let v1 := Nat.xor v1 v2
  let v2 := rotl64 v2 32
  ⟨v0, v1, v2, v3⟩

/-- Compression of one 64-bit message word with one round (SipHash-1-x). -/
def sipCompress (s : SipState) (m : Nat) : SipState :=
  let s1 : SipState := { s with v3 := Nat.xor s.v3 m }
  let s2 := sipRound s1
  { s2 with v0 := Nat.xor s2.v0 m }

/-- Little-endian value of a byte list (first byte least significant). -/
def leU64 (bytes : List Nat) : Nat :=
  bytes.foldr (fun b acc => b + 256 * acc) 0

/-- Consume the complete 8-byte blocks of the message, compressing each;
returns the state and the remaining tail of fewer than 8 bytes. -/
def sipBlocks (s : SipState) : List Nat → SipState × List Nat
  | b0 :: b1 :: b2 :: b3 :: b4 :: b5 :: b6 :: b7 :: rest =>
      sipBlocks (sipCompress s (leU64 [b0, b1, b2, b3, b4, b5, b6, b7])) rest
  | tail => (s, tail)

/-- SipHash-1-3 of a byte sequence, as computed by the std DefaultHasher
the launcher uses: initialise the four words from the keys, compress each
8-byte block with one round, fold the length byte and the tail into the
final block, mix with 0xff and three finalisation rounds, and xor the four
words together. -/
def sipHash13 (k0 k1 : Nat) (data : List Nat) : Nat :=
  let s0 : SipState :=
    ⟨Nat.xor k0 0x736f6d6570736575, Nat.xor k1 0x646f72616e646f6d,
     Nat.xor k0 0x6c7967656e657261, Nat.xor k1 0x7465646279746573⟩
  let bt := sipBlocks s0 data
  let b := w64 (((data.length % 256) <<< 56) + leU64 bt.2)
  let s2 := sipCompress bt.1 b
  let s3 : SipState := { s2 with v2 := Nat.xor s2.v2 0xff }
  let s4 := sipRound (sipRound (sipRound s3))
  Nat.xor (Nat.xor s4.v0 s4.v1) (Nat.xor s4.v2 s4.v3)

/-- UTF-8 encoding of one scalar value. -/
def utf8Bytes (c : Char) : List Nat :=
  let n := c.toNat
  if n < 0x80 then [n]
  else if n < 0x800 then
    [0xC0 ||| n >>> 6, 0x80 ||| (n &&& 0x3F)]
  else if n < 0x10000 then
    [0xE0 ||| n >>> 12, 0x80 ||| (n >>> 6 &&& 0x3F), 0x80 ||| (n &&& 0x3F)]
  else
    [0xF0 ||| n >>> 18, 0x80 ||| (n >>> 12 &&& 0x3F),
     0x80 ||| (n >>> 6 &&& 0x3F), 0x80 ||| (n &&& 0x3F)]

/-- The UTF-8 bytes of a string, as str::as_bytes yields them. -/
def strBytes (s : String) : List Nat := (s.data.map utf8Bytes).flatten

/-- The 64-bit digest the launcher computes for a task id: a zero-keyed
DefaultHasher fed the id string; Hash for str appends the byte 0xff to the
string bytes before finishing. -/
def hash64String (s : String) : Nat := sipHash13 0 0 (strBytes s ++ [0xff])

/-- Decimal rendering of a Nat, as the Display format writes a u64. -/
def decString (n : Nat) : String := String.mk (Nat.toDigits 10 n)

/-- Lowercase hexadecimal rendering of a Nat. -/
def hexString (n : Nat) : String := String.mk (Nat.toDigits 16 n)

/-- The fixed socket root directory from main.rs. -/
def SOCKET_ROOT : String := "/run/shim"

/-- Environment for one phase-A launcher run: whether each fallible step
(create_dir_all, bind, stdout write, stdout flush, current_exe,
current_dir, fd mapping, spawn) succeeds. -/
structure LauncherEnv where
  mkdirOk : Bool
  bindOk : Bool
  writeOk : Bool
  flushOk : Bool
  exeOk : Bool
  cwdOk : Bool
  fdMapOk : Bool
  spawnOk : Bool
deriving DecidableEq, Repr

/-- Observable result of a launcher run: the process exit status, the bytes
the launcher itself wrote to stdout, whether they were flushed, whether the
daemon child was spawned, and the derived socket path. -/
structure LauncherResult where
  exitSuccess : Bool
  stdoutBytes : String
  flushed : Bool
  spawned : Bool
  path : String
deriving DecidableEq, Repr

/-- The start function from main.rs (phase A): hash the id with a fresh
DefaultHasher, build the path SOCKET_ROOT slash hash dot sock with the hash
in Display (decimal) format, create the root directory, bind the listener,
write the string unix scheme plus path to stdout and flush it, then spawn
the daemon child with the listener mapped to fd 3; any failing step makes
the function return an error and main exit with failure. -/
def launcherStart (env : LauncherEnv) (id : String) : LauncherResult :=
  let hash := sipHash13 0 0 (strBytes id ++ [0xff])
  let path := SOCKET_ROOT ++ "/" ++ decString hash ++ ".sock"
  if env.mkdirOk = false then ⟨false, "", false, false, path⟩
  else if env.bindOk = false then ⟨false, "", false, false, path⟩
  else
    let out := "unix://" ++ path
    if env.writeOk = false then ⟨false, "", false, false, path⟩
    else if env.flushOk = false then ⟨false, out, false, false, path⟩
    else if env.exeOk = false then ⟨false, out, true, false, path⟩
    else if env.cwdOk = false then ⟨false, out, true, false, path⟩
    else if env.fdMapOk = false then ⟨false, out, true, false, path⟩
    else if env.spawnOk = false then ⟨false, out, true, false, path⟩
    else ⟨true, out, true, true, path⟩

/-- The socket path for a task id as the specification words it, with the
digest rendered in decimal: the form the launcher actually produces. -/
def specSocketPathDec (id : String) : String :=
  SOCKET_ROOT ++ "/" ++ decString (hash64String id) ++ ".sock"

/-- The socket path as claim C7 words it, with the digest rendered in
hexadecimal. -/
def specSocketPathHex (id : String) : String :=
  SOCKET_ROOT ++ "/" ++ hexString (hash64String id) ++ ".sock"

/-- Last character of a string, if any. -/
def lastChar (s : String) : Option Char := s.data.reverse.head?

/-- The signal number the dispatcher forwards for each handled signal. -/
def sigNum : Sig → Nat
  | .sigchld => 17
  | .sigint => 2
  | .sigterm => 15
  | .sigquit => 3

/-- A container that has already stopped with exit code 3. -/
def cStopped : Container := ⟨"a", "b", "o", "e", .STOPPED, 7, 3, some 11, 0⟩

/-- A running container that has not yet exited. -/
def cRunning : Container := ⟨"c1", "b", "o", "e", .RUNNING, 7, 0, none, 0⟩

/-- A launcher environment in which every step succeeds. -/
def envAll : LauncherEnv := ⟨true, true, true, true, true, true, true, true⟩

/-- Helper: a string built by appending ".sock" ends in the letter k. -/
theorem lastChar_sock2 (a b : String) :
    lastChar (a ++ (b ++ ".sock")) = some 'k' := by
  obtain ⟨l⟩ := a
  obtain ⟨m⟩ := b
  show (l ++ (m ++ ['.', 's', 'o', 'c', 'k'])).reverse.head? = some 'k'
  rw [List.reverse_append, List.reverse_append]
  rfl

/-- Claim C1 (corrected): a wait-subscribe performed when status is already
STOPPED does not enqueue a sender, so the handle it returns is a closed
channel, not a satisfied one; the Wait RPC maps a closed handle to Aborted.
Hence in the race the claim describes, where the status is read as RUNNING
or CREATED and set_exited completes before the subscription is enqueued,
Wait returns Aborted instead of the exit code.  Only when the subscription
is enqueued before set_exited does Wait return the true exit code and
timestamp. -/
theorem wait_subscribe_after_stop_gives_aborted (c : Container) (ec t : Int)
    (h : c.status = Status.RUNNING ∨ c.status = Status.CREATED) :
    TaskService.waitRace c ec t false = WaitOutcome.response ec (some t)
    ∧ TaskService.waitRace c ec t true = WaitOutcome.aborted
    ∧ ∀ c2 : Container, c2.status = Status.STOPPED → wait_channel c2 = (false, c2) := by
  refine ⟨?_, ?_, ?_⟩
  · rcases h with h | h <;>
      simp [TaskService.waitRace, wait_channel, Container.set_exited, h]
  · rcases h with h | h <;>
      simp [TaskService.waitRace, wait_channel, Container.set_exited, h]
  · intro c2 h2
    simp [wait_channel, h2]

/-- Witness for C1 at a concrete running container. -/
theorem wait_subscribe_after_stop_gives_aborted_witness :
    (cRunning.status = Status.RUNNING ∨ cRunning.status = Status.CREATED)
    ∧ TaskService.waitRace cRunning 1 5 false = WaitOutcome.response 1 (some 5) :=
  ⟨Or.inl rfl, (wait_subscribe_after_stop_gives_aborted cRunning 1 5 (Or.inl rfl)).1⟩

/-- Counterexample for C1 as stated: a Wait RPC that snapshots status
RUNNING and whose subscription step runs after set_exited returns Aborted,
not the true exit code. -/
theorem wait_race_returns_aborted_cex :
    TaskService.waitRace cRunning 0 5 true = WaitOutcome.aborted
    ∧ WaitOutcome.aborted ≠ WaitOutcome.response 0 (some 5) := by
  exact ⟨rfl, by decide⟩

/-- Claim C4 (corrected): the Start RPC checks only that a container with
the requested id is registered; it enforces no status precondition.  For
any registered container, whatever its status, it invokes the runtime and
on runtime success transitions the container to RUNNING, answering its
pid; a runtime failure is Internal and leaves the state unchanged; a
missing or mismatched id is NotFound without invoking the runtime. -/
theorem start_checks_only_existence (c : Container) (reqId : String)
    (rt : RunResult) :
    TaskService.start none reqId rt = (.err .NotFound, none, false)
    ∧ (c.id = reqId →
        TaskService.start (some c) reqId rt =
          if runOk rt then (.ok c.pid, some { c with status := Status.RUNNING }, true)
          else (.err .Internal, some c, true))
    ∧ (c.id ≠ reqId →
        TaskService.start (some c) reqId rt = (.err .NotFound, some c, false)) := by
  refine ⟨rfl, ?_, ?_⟩
  · intro h
    cases rt with
    | spawnErr => simp [TaskService.start, Container.start, runOk, h]
    | waitErr => simp [TaskService.start, Container.start, runOk, h]
    | exited code =>
        by_cases hc : code = 0 <;>
          simp [TaskService.start, Container.start, runOk, h, hc]
    | signaled sig => simp [TaskService.start, Container.start, runOk, h]
  · intro h
    simp [TaskService.start, h]

/-- Witness for C4: a runtime failure on Start surfaces as Internal. -/
theorem start_checks_only_existence_witness :
    cStopped.id = "a"
    ∧ TaskService.start (some cStopped) "a" RunResult.waitErr
        = (.err .Internal, some cStopped, true) := by
  refine ⟨rfl, ?_⟩
  have h := (start_checks_only_existence cStopped "a" RunResult.waitErr).2.1 rfl
  simpa [runOk] using h

/-- Counterexample for C4 as stated: Start on a STOPPED container does not
fail with a typed error; it invokes the runtime, succeeds, and moves the
container to RUNNING. -/
theorem start_from_stopped_succeeds_cex :
    TaskService.start (some cStopped) "a" (.exited 0)
      = (.ok 7, some { cStopped with status := Status.RUNNING }, true)
    ∧ cStopped.status ≠ Status.CREATED := by
  exact ⟨rfl, by decide⟩

/-- Claim C5 (corrected): no container operation guards on the current
status.  A successful create sets CREATED, a successful start sets
RUNNING, and set_exited sets STOPPED, each from any prior status, while
kill, delete and wait-subscribe never change the status.  Consequently the
status order is not respected: a successful start moves a STOPPED
container back to RUNNING, so STOPPED is not terminal. -/
theorem status_updates_unconditional (rt : RunResult) (pf : Option Int)
    (c : Container) (ec t : Int) (o : KillOutcome) :
    (Container.create rt pf c).2.status =
      (if runOk rt then (match pf with | some _ => Status.CREATED | none => c.status)
       else c.status)
    ∧ (Container.start rt c).2.status =
        (if runOk rt then Status.RUNNING else c.status)
    ∧ (Container.set_exited ec t c).2.status = Status.STOPPED
    ∧ (Container.delete rt c).2.status = c.status
    ∧ (Container.kill o c).2.status = c.status
    ∧ (wait_channel c).2.status = c.status := by
  refine ⟨?_, ?_, rfl, ?_, rfl, ?_⟩
  · cases rt with
    | spawnErr => simp [Container.create, runOk]
    | waitErr => simp [Container.create, runOk]
    | exited code =>
        by_cases hc : code = 0 <;>
          cases pf <;> simp [Container.create, runOk, hc]
    | signaled sig => simp [Container.create, runOk]
  · cases rt with
    | spawnErr => simp [Container.start, runOk]
    | waitErr => simp [Container.start, runOk]
    | exited code =>
        by_cases hc : code = 0 <;> simp [Container.start, runOk, hc]
    | signaled sig => simp [Container.start, runOk]
  · cases rt with
    | spawnErr => rfl
    | waitErr => rfl
    | exited code => by_cases hc : code = 0 <;> simp [Container.delete, hc]
    | signaled sig => rfl
  · unfold wait_channel
    split <;> rfl

/-- Counterexample for C5 as stated: a successful start on a STOPPED
container sets its status to RUNNING, a strictly backward move in the
UNKNOWN, CREATED, RUNNING, STOPPED order. -/
theorem stopped_to_running_cex :
    (Container.start (.exited 0) cStopped).2.status = Status.RUNNING
    ∧ statusIdx ((Container.start (.exited 0) cStopped).2.status)
        < statusIdx cStopped.status := by
  exact ⟨rfl, by decide⟩

/-- Claim C2 (corrected): the dispatcher loop continues across any number
of SIGINT, SIGTERM and SIGQUIT events, forwarding each to the container,
but it does not run for the lifetime of the process: the SIGCHLD arm ends
in a break, so the function returns after handling the first SIGCHLD.  The
loop is still iterating after an event list exactly when that list
contains no SIGCHLD, and in that case every event was forwarded. -/
theorem dispatcher_returns_after_first_sigchld (cp : Int)
    (children : List (Int × ChildState)) (events : List Sig) :
    ((handle_signals cp children events).outcome = DispatchOutcome.ranOut
      ↔ Sig.sigchld ∉ events)
    ∧ (Sig.sigchld ∉ events →
        (handle_signals cp children events).forwarded = events.map sigNum) := by
  induction events with
  | nil => simp [handle_signals]
  | cons e rest ih =>
      cases e with
      | sigchld =>
          cases h : waitpidNohang children cp with
          | error u => simp [handle_signals, h]
          | ok p => simp [handle_signals, h]
      | sigint => simpa [handle_signals, sigNum] using ih
      | sigterm => simpa [handle_signals, sigNum] using ih
      | sigquit => simpa [handle_signals, sigNum] using ih

/-- Witness for C2: two terminal-signal events leave the loop running and
both signals forwarded. -/
theorem dispatcher_returns_after_first_sigchld_witness :
    Sig.sigchld ∉ [Sig.sigint, Sig.sigterm]
    ∧ (handle_signals 1 [] [Sig.sigint, Sig.sigterm]).forwarded = [2, 15] := by
  refine ⟨by decide, ?_⟩
  have h := (dispatcher_returns_after_first_sigchld 1 [] [Sig.sigint, Sig.sigterm]).2
    (by decide)
  simpa [sigNum] using h

/-- Counterexample for C2 as stated: one SIGCHLD makes the dispatcher
function return, leaving a later SIGINT unhandled, so the dispatcher does
not run for the remaining lifetime of the process. -/
theorem dispatcher_terminates_on_sigchld_cex :
    (handle_signals 42 [(42, ChildState.alive)] [Sig.sigchld, Sig.sigint]).outcome
      = DispatchOutcome.returnedOk
    ∧ DispatchOutcome.returnedOk ≠ DispatchOutcome.ranOut
    ∧ (handle_signals 42 [(42, ChildState.alive)] [Sig.sigchld, Sig.sigint]).forwarded
      = [] := by
  exact ⟨rfl, by decide, rfl⟩

/-- Claim C3 (corrected): on a SIGCHLD the dispatcher performs exactly one
non-blocking reap, and its target is the container pid, never pid -1; at
most one exit event is emitted, so other terminated children stay
unreaped. -/
theorem sigchld_reaps_container_pid_once (cp : Int)
    (children : List (Int × ChildState)) (rest : List Sig) :
    (handle_signals cp children (Sig.sigchld :: rest)).reapCalls = [cp]
    ∧ (handle_signals cp children (Sig.sigchld :: rest)).emitted.length ≤ 1 := by
  cases h : waitpidNohang children cp with
  | error u => simp [handle_signals, h]
  | ok p =>
      obtain ⟨res, ch⟩ := p
      cases res <;> simp [handle_signals, h]

/-- Counterexample for C3 as stated: with two terminated children, one of
them the container, a single SIGCHLD leads to one reap call aimed at the
container pid (not -1) and leaves the other zombie in the child table, so
the dispatcher does not loop until no terminated children remain. -/
theorem sigchld_single_reap_cex :
    (handle_signals 42 [(42, ChildState.zombieExited 0), (43, ChildState.zombieExited 1)]
        [Sig.sigchld]).reapCalls = [42]
    ∧ (42 : Int) ≠ -1
    ∧ (handle_signals 42 [(42, ChildState.zombieExited 0), (43, ChildState.zombieExited 1)]
        [Sig.sigchld]).finalChildren = [(43, ChildState.zombieExited 1)]
    ∧ (handle_signals 42 [(42, ChildState.zombieExited 0), (43, ChildState.zombieExited 1)]
        [Sig.sigchld]).emitted = [0] := by
  exact ⟨rfl, by decide, rfl, rfl⟩

/-- Claim C6 (corrected): Shutdown fires the exit latch only when no
container is registered or when the kill and delete steps both succeed; a
failing runtime delete makes Shutdown return Internal at once, leaving the
container registered and the latch unfired, so a repeat call can fail
again.  After a Shutdown that emptied the registry, a second Shutdown
succeeds, and firing the latch twice is the same as firing it once. -/
theorem shutdown_latch_conditional (c : Container) (o : KillOutcome)
    (rt : RunResult) (l : Bool) :
    TaskService.shutdown none o rt l = (.ok (), none, true)
    ∧ (runOk rt = true →
        TaskService.shutdown (some c) o rt l = (.ok (), none, true))
    ∧ (runOk rt = false →
        TaskService.shutdown (some c) o rt l = (.err .Internal, some c, l))
    ∧ ExitSignal.signal (ExitSignal.signal l) = ExitSignal.signal l := by
  refine ⟨rfl, ?_, ?_, rfl⟩
  · intro h
    cases rt with
    | spawnErr => simp [runOk] at h
    | waitErr => simp [runOk] at h
    | exited code =>
        have hc : code = 0 := by simpa [runOk] using h
        simp [TaskService.shutdown, Container.kill, Container.delete,
          ExitSignal.signal, forward_signal, hc]
    | signaled sig => simp [runOk] at h
  · intro h
    cases rt with
    | spawnErr =>
        simp [TaskService.shutdown, Container.kill, Container.delete, forward_signal]
    | waitErr =>
        simp [TaskService.shutdown, Container.kill, Container.delete, forward_signal]
    | exited code =>
        have hc : ¬ code = 0 := by simpa [runOk] using h
        simp [TaskService.shutdown, Container.kill, Container.delete,
          forward_signal, hc]
    | signaled sig =>
        simp [TaskService.shutdown, Container.kill, Container.delete, forward_signal]

/-- Witness for C6: a successful delete fires the latch and empties the
registry. -/
theorem shutdown_latch_conditional_witness :
    runOk (.exited 0) = true
    ∧ TaskService.shutdown (some cRunning) KillOutcome.delivered (.exited 0) false
        = (.ok (), none, true) :=
  ⟨rfl, (shutdown_latch_conditional cRunning KillOutcome.delivered (.exited 0) false).2.1 rfl⟩

/-- Counterexample for C6 as stated: when the runtime delete fails,
Shutdown returns Internal on the very first call and the exit latch is not
fired; the registry still holds the container, so a second identical call
returns Internal again. -/
theorem shutdown_delete_failure_latch_unfired_cex :
    TaskService.shutdown (some cRunning) KillOutcome.delivered (.exited 1) false
      = (.err .Internal, some cRunning, false)
    ∧ (TaskService.shutdown (some cRunning) KillOutcome.delivered (.exited 1) false).2.2
        ≠ true := by
  exact ⟨rfl, by decide⟩

/-- Claim C7 (corrected): the launcher derives the socket path
deterministically from the task id as SOCKET_ROOT slash digest dot sock,
where the digest is the zero-keyed SipHash-1-3 of the id bytes, but it is
rendered in decimal (the Display format of a u64), not hexadecimal; the
same id always yields the same path, in any environment. -/
theorem socket_path_decimal_deterministic (env : LauncherEnv) (id : String) :
    (launcherStart env id).path = specSocketPathDec id
    ∧ ∀ env2 : LauncherEnv, (launcherStart env2 id).path = (launcherStart env id).path := by
  have key : ∀ e : LauncherEnv, (launcherStart e id).path = specSocketPathDec id := by
    intro e
    obtain ⟨a, b, c, d, f, g, i, j⟩ := e
    cases a <;> cases b <;> cases c <;> cases d <;> cases f <;> cases g <;>
      cases i <;> cases j <;> rfl
  exact ⟨key env, fun env2 => (key env2).trans (key env).symm⟩

/-- Counterexample for C7 as stated: for the id "abc" the path the launcher
derives is not the hexadecimal rendering of the digest; the decimal and
hexadecimal renderings disagree. -/
theorem socket_path_not_hex_cex :
    (launcherStart envAll "abc").path ≠ specSocketPathHex "abc"
    ∧ (launcherStart envAll "abc").path = specSocketPathDec "abc" := by
  exact ⟨by decide, rfl⟩

/-- Claim C8 (confirmed): every runtime failure during create, start or
delete (spawn failure, wait failure, non-zero exit, or death by signal)
yields an error and leaves the container exactly as it was; create writes
pid and status CREATED only when the runtime exited successfully and the
pid file was read and parsed, and start writes RUNNING only when the
runtime exited successfully. -/
theorem runtime_failure_leaves_state_unchanged (rt : RunResult)
    (pf : Option Int) (c : Container) :
    (runOk rt = false →
       (Container.create rt pf c).2 = c ∧ (Container.create rt pf c).1 ≠ CRes.ok
       ∧ (Container.start rt c).2 = c ∧ (Container.start rt c).1 ≠ CRes.ok)
    ∧ (pf = none →
        (Container.create rt pf c).2 = c ∧ (Container.create rt pf c).1 ≠ CRes.ok)
    ∧ ((Container.create rt pf c).1 = CRes.ok →
        runOk rt = true ∧ ∃ p, pf = some p ∧
          (Container.create rt pf c).2 = { c with pid := p, status := Status.CREATED })
    ∧ ((Container.start rt c).1 = CRes.ok →
        runOk rt = true ∧ (Container.start rt c).2 = { c with status := Status.RUNNING })
    ∧ (Container.delete rt c).2 = c := by
  refine ⟨?_, ?_, ?_, ?_, ?_⟩
  · intro h
    cases rt with
    | spawnErr => simp [Container.create, Container.start]
    | waitErr => simp [Container.create, Container.start]
    | exited code =>
        have hc : ¬ code = 0 := by simpa [runOk] using h
        simp [Container.create, Container.start, hc]
    | signaled sig => simp [Container.create, Container.start]
  · intro h
    subst h
    cases rt with
    | spawnErr => simp [Container.create]
    | waitErr => simp [Container.create]
    | exited code => by_cases hc : code = 0 <;> simp [Container.create, hc]
    | signaled sig => simp [Container.create]
  · intro h
    cases rt with
    | spawnErr => simp [Container.create] at h
    | waitErr => simp [Container.create] at h
    | exited code =>
        by_cases hc : code = 0
        · cases pf with
          | none => simp [Container.create, hc] at h
          | some p =>
              refine ⟨by simp [runOk, hc], p, rfl, ?_⟩
              simp [Container.create, hc]
        · simp [Container.create, hc] at h
    | signaled sig => simp [Container.create] at h
  · intro h
    cases rt with
    | spawnErr => simp [Container.start] at h
    | waitErr => simp [Container.start] at h
    | exited code =>
        by_cases hc : code = 0
        · exact ⟨by simp [runOk, hc], by simp [Container.start, hc]⟩
        · simp [Container.start, hc] at h
    | signaled sig => simp [Container.start] at h
  · cases rt with
    | spawnErr => rfl
    | waitErr => rfl
    | exited code => by_cases hc : code = 0 <;> simp [Container.delete, hc]
    | signaled sig => rfl

/-- Witness for C8: a runtime killed by SIGKILL during create fails the
operation and leaves the fresh container untouched. -/
theorem runtime_failure_leaves_state_unchanged_witness :
    runOk (.signaled 9) = false
    ∧ (Container.create (.signaled 9) (some 5) (Container.new "a" "b" "o" "e")).2
        = Container.new "a" "b" "o" "e" :=
  ⟨rfl,
   ((runtime_failure_leaves_state_unchanged (.signaled 9) (some 5)
      (Container.new "a" "b" "o" "e")).1 rfl).1⟩

/-- Claim C9 (confirmed): on a successful launcher run the bytes the
launcher writes to stdout are exactly the string unix colon slash slash
followed by the bound socket path, flushed before exit, with no trailing
newline (the last byte is the letter k of ".sock"); a create-dir or bind
failure before the detach makes the launcher exit with a failing status. -/
theorem launcher_stdout_contract (env : LauncherEnv) (id : String) :
    ((launcherStart env id).exitSuccess = true →
       (launcherStart env id).stdoutBytes = "unix://" ++ (launcherStart env id).path
       ∧ (launcherStart env id).flushed = true
       ∧ (launcherStart env id).spawned = true
       ∧ lastChar (launcherStart env id).stdoutBytes = some 'k')
    ∧ (env.bindOk = false → (launcherStart env id).exitSuccess = false)
    ∧ (env.mkdirOk = false → (launcherStart env id).exitSuccess = false) := by
  obtain ⟨a, b, c, d, f, g, i, j⟩ := env
  cases a <;> cases b <;> cases c <;> cases d <;> cases f <;> cases g <;>
    cases i <;> cases j <;>
    simp [launcherStart, SOCKET_ROOT]
  exact lastChar_sock2 "unix://"
    ("/run/shim" ++ "/" ++ decString (sipHash13 0 0 (strBytes id ++ [255])))

/-- Witness for C9 at the id "abc" with every step succeeding. -/
theorem launcher_stdout_contract_witness :
    (launcherStart envAll "abc").exitSuccess = true
    ∧ (launcherStart envAll "abc").stdoutBytes
        = "unix://" ++ (launcherStart envAll "abc").path :=
  ⟨rfl, ((launcher_stdout_contract envAll "abc").1 rfl).1⟩

/-- Claim C10 (confirmed): forward_signal swallows every kill(2) outcome,
so Container::kill always succeeds without touching the container, the
Internal branch of the Kill RPC handler is unreachable for every input,
and Kill on a registered container with a valid signal number returns the
empty success response whatever the delivery outcome, including ESRCH for
an already-exited process. -/
theorem kill_never_internal (reg : Option Container) (reqId : String)
    (n : Int) (o : KillOutcome) (c : Container) :
    TaskService.kill reg reqId n o ≠ RpcRes.err Code.Internal
    ∧ (1 ≤ n → n ≤ 31 → TaskService.kill (some c) c.id n o = RpcRes.ok ())
    ∧ Container.kill o c = (CRes.ok, c) := by
  refine ⟨?_, ?_, rfl⟩
  · cases reg with
    | none => simp [TaskService.kill]
    | some c2 =>
        by_cases hid : c2.id = reqId
        · by_cases hs : 1 ≤ n ∧ n ≤ 31 <;>
            simp [TaskService.kill, signalOfNum, Container.kill, hid, hs]
        · simp [TaskService.kill, hid]
  · intro h1 h2
    simp [TaskService.kill, signalOfNum, Container.kill, h1, h2]

/-- Witness for C10: Kill with SIGTERM on an already-stopped container
whose kill(2) reports ESRCH still returns the empty success response. -/
theorem kill_never_internal_witness :
    (1 : Int) ≤ 15 ∧ (15 : Int) ≤ 31
    ∧ TaskService.kill (some cStopped) cStopped.id 15 KillOutcome.esrch
        = RpcRes.ok () :=
  ⟨by decide, by decide,
   (kill_never_internal (some cStopped) cStopped.id 15 KillOutcome.esrch cStopped).2.1
     (by decide) (by decide)⟩

end RuncShim
